import Mathlib

/-!
Shallow embedding of `scripts/automated-deployment-testing.py`
(`EkkoTestRunner`): data model, resilient request client (urllib3-style
status retry as configured in `__init__`), credential cache
(`authenticate_user`), test runner (`run_test`), phase scheduler
(`run_phaseN_tests`), and the aggregator/reporter (`generate_report`,
`main` exit code).  Machine time (`time.time()` deltas) is abstracted as
natural-number durations supplied by the check being run.
-/

namespace Ekko

/-- Status strings used by the script: PASS, FAIL, SKIP. -/
inductive Status where
  | pass
  | fail
  | skip
deriving DecidableEq, Repr

/-- Python `@dataclass TestAccount`: email and password. -/
structure TestAccount where
  email : String
  password : String
deriving DecidableEq, Repr

/-- Python `@dataclass TestResult`: one outcome per executed test. -/
structure TestResult where
  test_id : String
  name : String
  status : Status
  message : String
  duration : Nat
deriving DecidableEq, Repr

/-- Python `@dataclass TestSession`: the mutable aggregate owned by one run.
Dicts are modelled as association lists looked up by first match;
dict assignment inserts at the head (first match = latest write). -/
structure TestSession where
  accounts : List (String × TestAccount)
  tokens : List (String × String)
  base_url : String
  results : List TestResult
  start_time : Nat
deriving Repr

/-- The fixed account map built in `EkkoTestRunner.__init__`. -/
def initial_accounts : List (String × TestAccount) :=
  [ ("admin", ⟨"admin@ekko.earth", "Password123!"⟩),
    ("london_manager", ⟨"london.manager@ekko.earth", "Password123!"⟩),
    ("manchester_manager", ⟨"manchester.manager@ekko.earth", "Password123!"⟩),
    ("westminster_staff", ⟨"westminster.staff@ekko.earth", "Password123!"⟩),
    ("camden_staff", ⟨"camden.staff@ekko.earth", "Password123!"⟩),
    ("citycentre_staff", ⟨"citycentre.staff@ekko.earth", "Password123!"⟩) ]

/-- Embeds `EkkoTestRunner.__init__`: fresh session (empty token cache, empty
results) against `base_url.rstrip('/')`, started at the given clock. -/
def init_session (base_url : String) (now : Nat) : TestSession :=
  { accounts := initial_accounts
    tokens := []
    base_url := base_url.dropRightWhile (· == '/')
    results := []
    start_time := now }

/-! ## Resilient request client

`__init__` configures `requests` with a `urllib3` `Retry` strategy:
`total=3`, `status_forcelist=[429, 500, 502, 503, 504]`, POST allowed,
`backoff_factor=1` (the backoff only inserts delays, which are not part
of the functional model).  A response whose status is in the forcelist
consumes one retry; when retries are exhausted the adapter raises a
retry error (`raise_on_status` defaults to true), which `requests`
surfaces as a `RequestException`.  Any other status is returned to the
caller immediately. -/

/-- The `status_forcelist=[429, 500, 502, 503, 504]` from `__init__`. -/
def status_forcelist : List Nat := [429, 500, 502, 503, 504]

/-- An HTTP response as the script observes it: status code, reason
phrase, raw text, and the result of `response.json()` — either the
parsed body or the decoder error description (`str(e)` of the
`json.JSONDecodeError`). -/
structure HttpResponse (α : Type) where
  status : Nat
  reason : String
  text : String
  body : Except String α
deriving Repr

/-- One `http_session.post` call through the retry adapter.  `responses`
gives the endpoint's answer to the i-th attempt; `retries_left` starts
at the configured `total=3`; `attempt` counts requests already issued.
Returns the first non-forcelist response together with the total number
of attempts issued, or the retry-exhaustion error. -/
def retry_send (α : Type) (responses : Nat → HttpResponse α) :
    Nat → Nat → Except String (HttpResponse α) × Nat
  | retries_left, attempt =>
    let r := responses attempt
    if r.status ∈ status_forcelist then
      match retries_left with
      | 0 => (Except.error ("Max retries exceeded: too many " ++ toString r.status
                ++ " error responses"), attempt + 1)
      | n + 1 => retry_send α responses n (attempt + 1)
    else
      (Except.ok r, attempt + 1)

/-- The configured client: `total=3` retries, first attempt is number 0. -/
def http_post (α : Type) (responses : Nat → HttpResponse α) :
    Except String (HttpResponse α) × Nat :=
  retry_send α responses 3 0

/-- The distinct failure kinds raised by `make_graphql_request`:
transport failure (`requests.exceptions.RequestException`, including
retry exhaustion), non-200 status, and JSON decode failure on a 200
response. -/
inductive ReqError where
  | networkError (err : String)
  | protocolError (status : Nat) (reason : String)
  | decodeError (err : String)
deriving DecidableEq, Repr

/-- The exception message `str(e)` carried by each `raise` site in
`make_graphql_request`. -/
def ReqError.message : ReqError → String
  | .networkError err => "Network request failed: " ++ err
  | .protocolError status reason =>
      "GraphQL request failed: " ++ toString status ++ " " ++ reason
  | .decodeError err => "Invalid JSON response: " ++ err

/-- Embeds `EkkoTestRunner.make_graphql_request`, applied to the outcome of the
retried POST.  Returns the parsed body or the raised error, together
with the `self.log` lines it emits (`base_url` and the rendered request
headers are the interpolated values).  A non-200 status raises a
protocol error; a 200 response whose body fails to parse logs the
decoder error and the first 500 characters of the raw body, then raises
a decode error carrying the decoder description. -/
def make_graphql_request (α : Type) (base_url headers_rendered : String)
    (sent : Except String (HttpResponse α)) :
    Except ReqError α × List String :=
  let pre := ["Making GraphQL request to: " ++ base_url ++ "/api/graphql",
              "Headers: " ++ headers_rendered]
  match sent with
  | Except.error e =>
      (Except.error (ReqError.networkError e), pre ++ ["Request error: " ++ e])
  | Except.ok response =>
      let ls := pre ++ ["Response status: " ++ toString response.status]
      if response.status ≠ 200 then
        (Except.error (ReqError.protocolError response.status response.reason), ls)
      else
        match response.body with
        | Except.error e =>
            (Except.error (ReqError.decodeError e),
             ls ++ ["JSON decode error: " ++ e,
                    "Response content: " ++ response.text.take 500])
        | Except.ok parsed => (Except.ok parsed, ls)

/-! ## Credential cache -/

/-- The shape `authenticate_user` inspects in the parsed login
response: a top-level `errors` field (rendered by `json.dumps` when
present) and the `data.login.token` field when reachable and truthy. -/
structure LoginBody where
  errors : Option String
  token : Option String
deriving DecidableEq, Repr

/-- The distinct failure modes of `authenticate_user`: a `KeyError`
from the `self.session.accounts[account_key]` dict lookup, a propagated
`make_graphql_request` failure, a response with an `errors` field, and
a well-formed response lacking a token. -/
inductive AuthErr where
  | keyError (key : String)
  | request (e : ReqError)
  | authFailed (errors_json : String)
  | noToken
deriving DecidableEq, Repr

/-- The exception message of each `authenticate_user` failure (for the
`KeyError`, Python renders the missing key itself). -/
def AuthErr.message : AuthErr → String
  | .keyError key => key
  | .request e => e.message
  | .authFailed errors_json => "Authentication failed: " ++ errors_json
  | .noToken => "Login failed: No token received"

/-- Embeds `EkkoTestRunner.authenticate_user`.  Here `net` is the target's answer to
one login exchange for a given account (fed through the retried POST of
`make_graphql_request`).  Returns the token or the raised error, the
updated session, and the number of network login exchanges performed
(0 on a cache hit or `KeyError`, 1 otherwise). -/
def authenticate_user (net : TestAccount → Except String (HttpResponse LoginBody))
    (s : TestSession) (account_key : String) :
    Except AuthErr String × TestSession × Nat :=
  match s.tokens.lookup account_key with
  | some token => (Except.ok token, s, 0)
  | none =>
    match s.accounts.lookup account_key with
    | none => (Except.error (AuthErr.keyError account_key), s, 0)
    | some account =>
      match (make_graphql_request LoginBody s.base_url "session headers"
               (net account)).fst with
      | Except.error e => (Except.error (AuthErr.request e), s, 1)
      | Except.ok response =>
        match response.errors with
        | some errs => (Except.error (AuthErr.authFailed errs), s, 1)
        | none =>
          match response.token with
          | none => (Except.error AuthErr.noToken, s, 1)
          | some token =>
              (Except.ok token,
               { s with tokens := (account_key, token) :: s.tokens }, 1)

/-- A sequence of `authenticate_user` calls threading the session, with
the total number of network login exchanges performed. -/
def auth_calls (net : TestAccount → Except String (HttpResponse LoginBody))
    (keys : List String) (s : TestSession) : TestSession × Nat :=
  keys.foldl
    (fun acc key =>
      let r := authenticate_user net acc.fst key
      (r.snd.fst, acc.snd + r.snd.snd))
    (s, 0)

/-! ## Test case runner and phase scheduler -/

/-- A check body as the runner sees it: run against the current session,
it either returns (`Except.ok`) or raises with a message `str(e)`
(`Except.error`), leaves a possibly-updated session (e.g. new cached
tokens), and takes some wall-clock time (the `time.time()` delta). -/
def Check : Type :=
  TestSession → Except String Unit × TestSession × Nat

/-- Embeds `EkkoTestRunner.run_test`: invoke the check once; on normal return
append a PASS outcome with the fixed success message, on any exception
append a FAIL outcome whose message is the exception description.
Exactly one `TestResult` is appended either way; nothing is raised. -/
def run_test (test_id name : String) (test_function : Check)
    (s : TestSession) : TestSession :=
  match test_function s with
  | (Except.ok _, s2, duration) =>
      { s2 with results := s2.results ++
          [⟨test_id, name, Status.pass, "Test completed successfully", duration⟩] }
  | (Except.error msg, s2, duration) =>
      { s2 with results := s2.results ++
          [⟨test_id, name, Status.fail, msg, duration⟩] }

/-- One phase (`run_phase1_tests` etc.): `run_test` once per entry,
strictly in order, independent of prior outcomes. -/
def run_phase (entries : List (String × String × Check)) (s : TestSession) :
    TestSession :=
  entries.foldl (fun acc e => run_test e.fst e.snd.fst e.snd.snd acc) s

/-- Embeds `EkkoTestRunner.run`: the phases in order, one after the other. -/
def run_phases (phases : List (List (String × String × Check)))
    (s : TestSession) : TestSession :=
  phases.foldl (fun acc p => run_phase p acc) s

/-! ## Result aggregator and reporter -/

/-- The `summary` object of the JSON report written by
`generate_report`, together with the ordered results list. -/
structure Report where
  total_tests : Nat
  passed : Nat
  failed : Nat
  skipped : Nat
  success_rate : ℚ
  total_duration : Nat
  target_url : String
  results : List TestResult
deriving Repr

/-- Embeds `EkkoTestRunner.generate_report`: count outcomes by status, compute
the success rate on the 0–100 scale (0 when no tests ran), and return
the report together with the run's boolean result `failed == 0`. -/
def generate_report (s : TestSession) (now : Nat) : Report × Bool :=
  let total_tests := s.results.length
  let passed := (s.results.filter (fun r => r.status == Status.pass)).length
  let failed := (s.results.filter (fun r => r.status == Status.fail)).length
  let skipped := (s.results.filter (fun r => r.status == Status.skip)).length
  let total_duration := now - s.start_time
  let success_rate : ℚ :=
    if total_tests > 0 then (passed : ℚ) / (total_tests : ℚ) * 100 else 0
  (⟨total_tests, passed, failed, skipped, success_rate, total_duration,
     s.base_url, s.results⟩,
   failed == 0)

/-- Embeds `main`: `sys.exit(0 if success else 1)`. -/
def exit_code (success : Bool) : Nat :=
  if success then 0 else 1

/-! ## Concrete fixtures used by witnesses and counterexamples -/

/-- A check that returns normally after 5 time units. -/
def passing_check : Check := fun s => (Except.ok (), s, 5)

/-- A check that raises with message "boom" after 2 time units. -/
def boom_check : Check := fun s => (Except.error "boom", s, 2)

/-- A check that raises an exception whose description is empty
(Python: `raise Exception()` gives `str(e) == ""`). -/
def silent_check : Check := fun s => (Except.error "", s, 0)

/-- A target whose login endpoint always answers 200 with an `errors`
field (invalid credentials). -/
def rejecting_net : TestAccount → Except String (HttpResponse LoginBody) :=
  fun _ => Except.ok ⟨200, "OK", "body", Except.ok ⟨some "invalid credentials", none⟩⟩

/-- A target whose login endpoint always succeeds with token "tok". -/
def granting_net : TestAccount → Except String (HttpResponse LoginBody) :=
  fun _ => Except.ok ⟨200, "OK", "body", Except.ok ⟨none, some "tok"⟩⟩

/-- Endpoint answering 503 to the first two attempts, then 200. -/
def flaky_endpoint : Nat → HttpResponse Unit := fun n =>
  if n < 2 then ⟨503, "Service Unavailable", "", Except.error "Expecting value: line 1 column 1 (char 0)"⟩
  else ⟨200, "OK", "ok", Except.ok ()⟩

/-- Endpoint answering 404 to every attempt. -/
def missing_endpoint : Nat → HttpResponse Unit := fun _ =>
  ⟨404, "Not Found", "not found", Except.error "Expecting value: line 1 column 1 (char 0)"⟩

/-- A 201 response whose body is not valid JSON. -/
def created_html_response : HttpResponse Unit :=
  ⟨201, "Created", "<html>oops</html>", Except.error "Expecting value: line 1 column 1 (char 0)"⟩

/-- A 200 response whose body is not valid JSON. -/
def ok_html_response : HttpResponse Unit :=
  ⟨200, "OK", "<html>oops</html>", Except.error "Expecting value: line 1 column 1 (char 0)"⟩

/-- A session used to anchor concrete scenarios. -/
def demo_session : TestSession := init_session "http://localhost:3000" 0

/-- Ten outcomes, eight PASS and two FAIL, as in the spec scenario. -/
def ten_results : List TestResult :=
  [⟨"T1", "n1", Status.pass, "m", 1⟩, ⟨"T2", "n2", Status.pass, "m", 1⟩,
   ⟨"T3", "n3", Status.pass, "m", 1⟩, ⟨"T4", "n4", Status.pass, "m", 1⟩,
   ⟨"T5", "n5", Status.pass, "m", 1⟩, ⟨"T6", "n6", Status.pass, "m", 1⟩,
   ⟨"T7", "n7", Status.pass, "m", 1⟩, ⟨"T8", "n8", Status.pass, "m", 1⟩,
   ⟨"T9", "n9", Status.fail, "boom", 1⟩, ⟨"T10", "n10", Status.fail, "boom", 1⟩]

/-- A session holding the ten outcomes above. -/
def ten_session : TestSession :=
  { accounts := [], tokens := [], base_url := "http://localhost:3000",
    results := ten_results, start_time := 0 }

/-- A two-phase schedule: one passing check, then one failing check. -/
def demo_phases : List (List (String × String × Check)) :=
  [[("P1T1", "User Authentication", passing_check)],
   [("P1T8", "Error Handling", boom_check)]]

/-- The session after one successful authentication of "admin". -/
def after_admin_auth : TestSession :=
  (authenticate_user granting_net demo_session "admin").snd.fst

/-! ## General facts about the runner and reporter -/

/-- A check that does not touch `session.results` (every check in the
script only reads the session and writes the token cache). -/
def ResultsPreserving (check : Check) : Prop :=
  ∀ s, ((check s).snd.fst).results = s.results

/-- Lemma: `run_test` appends exactly one outcome, carrying the given id and
name, and its status is PASS or FAIL, never SKIP. -/
theorem run_test_shape (test_id name : String) (check : Check)
    (s : TestSession) (h : ResultsPreserving check) :
    ∃ r : TestResult, (run_test test_id name check s).results = s.results ++ [r]
      ∧ r.test_id = test_id ∧ r.name = name ∧ r.status ≠ Status.skip := by
  have hres := h s
  rcases hc : check s with ⟨out, s2, d⟩
  rw [hc] at hres
  have hres2 : s2.results = s.results := hres
  cases out with
  | ok u =>
      exact ⟨⟨test_id, name, Status.pass, "Test completed successfully", d⟩,
        by simp [run_test, hc, hres2], rfl, rfl, by simp⟩
  | error msg =>
      exact ⟨⟨test_id, name, Status.fail, msg, d⟩,
        by simp [run_test, hc, hres2], rfl, rfl, by simp⟩

/-- Shape of a whole phase: the (id, name) projection of the results is
the initial one followed by the schedule's, and no new outcome is SKIP. -/
theorem run_phase_shape (entries : List (String × String × Check))
    (s : TestSession) (h : ∀ e ∈ entries, ResultsPreserving e.snd.snd) :
    (run_phase entries s).results.map (fun r => (r.test_id, r.name))
      = s.results.map (fun r => (r.test_id, r.name))
        ++ entries.map (fun e => (e.fst, e.snd.fst))
    ∧ ∀ r ∈ (run_phase entries s).results, r.status = Status.skip → r ∈ s.results := by
  induction entries generalizing s with
  | nil => exact ⟨by simp [run_phase], fun r hr _ => hr⟩
  | cons e rest ih =>
      obtain ⟨r, hr, hid, hname, hstatus⟩ :=
        run_test_shape e.fst e.snd.fst e.snd.snd s (h e (by simp))
      have hrest : ∀ x ∈ rest, ResultsPreserving x.snd.snd :=
        fun x hx => h x (by simp [hx])
      have step : run_phase (e :: rest) s
          = run_phase rest (run_test e.fst e.snd.fst e.snd.snd s) := by
        simp [run_phase]
      obtain ⟨ih1, ih2⟩ := ih (run_test e.fst e.snd.fst e.snd.snd s) hrest
      constructor
      · rw [step, ih1, hr]
        simp [hid, hname]
      · intro x hx hskip
        have := ih2 x (by rw [← step]; exact hx) hskip
        rw [hr] at this
        rcases List.mem_append.mp this with hin | hin
        · exact hin
        · exfalso
          have : x = r := by simpa using hin
          exact hstatus (this ▸ hskip)

/-- Shape of the whole run (`run_phases`), relative to the flattened
schedule. -/
theorem run_phases_shape (phases : List (List (String × String × Check)))
    (s : TestSession) (h : ∀ p ∈ phases, ∀ e ∈ p, ResultsPreserving e.snd.snd) :
    (run_phases phases s).results.map (fun r => (r.test_id, r.name))
      = s.results.map (fun r => (r.test_id, r.name))
        ++ (phases.flatten).map (fun e => (e.fst, e.snd.fst))
    ∧ ∀ r ∈ (run_phases phases s).results, r.status = Status.skip → r ∈ s.results := by
  induction phases generalizing s with
  | nil => exact ⟨by simp [run_phases], fun r hr _ => hr⟩
  | cons p rest ih =>
      have hp : ∀ e ∈ p, ResultsPreserving e.snd.snd := h p (by simp)
      have hrest : ∀ q ∈ rest, ∀ e ∈ q, ResultsPreserving e.snd.snd :=
        fun q hq => h q (by simp [hq])
      have step : run_phases (p :: rest) s = run_phases rest (run_phase p s) := by
        simp [run_phases]
      obtain ⟨h1, h2⟩ := run_phase_shape p s hp
      obtain ⟨ih1, ih2⟩ := ih (run_phase p s) hrest
      constructor
      · rw [step, ih1, h1]
        simp
      · intro x hx hskip
        exact h2 x (ih2 x (by rw [← step]; exact hx) hskip) hskip

/-- The three status filters partition the results list. -/
theorem status_counts_sum (rs : List TestResult) :
    (rs.filter (fun r => r.status == Status.pass)).length
      + (rs.filter (fun r => r.status == Status.fail)).length
      + (rs.filter (fun r => r.status == Status.skip)).length
      = rs.length := by
  induction rs with
  | nil => rfl
  | cons r t ih =>
      cases hs : r.status <;>
        simp [List.filter_cons, hs] <;> omega

/-! ## Claim theorems -/

/-- C1: `run_test` never raises: a check that raises any exception
yields exactly one appended FAIL outcome whose message is the
exception's description; a check that returns normally yields exactly
one appended PASS outcome with the fixed success message. -/
theorem run_test_isolates_failures (test_id name : String) (check : Check)
    (s : TestSession) :
    (∀ msg s2 d, check s = (Except.error msg, s2, d) →
      (run_test test_id name check s).results
        = s2.results ++ [⟨test_id, name, Status.fail, msg, d⟩])
    ∧ (∀ u s2 d, check s = (Except.ok u, s2, d) →
      (run_test test_id name check s).results
        = s2.results
          ++ [⟨test_id, name, Status.pass, "Test completed successfully", d⟩]) := by
  constructor
  · intro msg s2 d h
    simp [run_test, h]
  · intro u s2 d h
    simp [run_test, h]

/-- Witness for C1: a raising check and a normally returning check, run
against a fresh session, each append exactly their one outcome. -/
theorem run_test_isolates_failures_witness :
    (run_test "P1T1" "User Authentication" boom_check demo_session).results
      = [⟨"P1T1", "User Authentication", Status.fail, "boom", 2⟩]
    ∧ (run_test "P1T2" "Hierarchical Permissions" passing_check demo_session).results
      = [⟨"P1T2", "Hierarchical Permissions", Status.pass,
          "Test completed successfully", 5⟩] := by
  constructor
  · have h := (run_test_isolates_failures "P1T1" "User Authentication"
      boom_check demo_session).1 "boom" demo_session 2 rfl
    simpa using h
  · have h := (run_test_isolates_failures "P1T2" "Hierarchical Permissions"
      passing_check demo_session).2 () demo_session 5 rfl
    simpa using h

/-- C8 counterexample: a check raising an exception whose description
is empty (`raise Exception()`) produces a FAIL outcome whose message is
the empty string — refuting "status=FAIL and a non-empty message". -/
theorem runner_fail_empty_message_cex :
    (run_test "T0" "Silent failure" silent_check demo_session).results.map
        (fun r => (r.status, r.message))
      = [(Status.fail, "")] := by
  rfl

/-- C8 as amended: a check that raises yields status=FAIL with message
equal to the failure's description (non-empty only when that
description is); a check that returns normally yields status=PASS. -/
theorem runner_status_mapping (test_id name : String) (check : Check)
    (s : TestSession) :
    (∀ msg s2 d, check s = (Except.error msg, s2, d) →
       ∃ r, (run_test test_id name check s).results.getLast? = some r
         ∧ r.status = Status.fail ∧ r.message = msg)
    ∧ (∀ u s2 d, check s = (Except.ok u, s2, d) →
       ∃ r, (run_test test_id name check s).results.getLast? = some r
         ∧ r.status = Status.pass) := by
  constructor
  · intro msg s2 d h
    exact ⟨⟨test_id, name, Status.fail, msg, d⟩,
      by simp [run_test, h], rfl, rfl⟩
  · intro u s2 d h
    exact ⟨⟨test_id, name, Status.pass, "Test completed successfully", d⟩,
      by simp [run_test, h], rfl⟩

/-- Witness for the amended C8, at a raising and a returning check. -/
theorem runner_status_mapping_witness :
    (∃ r, (run_test "P1T8" "Error Handling" boom_check demo_session).results.getLast?
        = some r ∧ r.status = Status.fail ∧ r.message = "boom")
    ∧ (∃ r, (run_test "P2T1" "Production Infrastructure" passing_check
        demo_session).results.getLast? = some r ∧ r.status = Status.pass) := by
  exact ⟨(runner_status_mapping "P1T8" "Error Handling" boom_check
            demo_session).1 "boom" demo_session 2 rfl,
         (runner_status_mapping "P2T1" "Production Infrastructure" passing_check
            demo_session).2 () demo_session 5 rfl⟩

/-- C6: the run's boolean result is true iff no outcome is FAIL, and
`main` maps it to exit code 0 iff no outcome is FAIL; SKIP outcomes do
not affect it. -/
theorem run_success_iff_no_failures (s : TestSession) (now : Nat) :
    ((generate_report s now).snd = true
      ↔ (s.results.filter (fun r => r.status == Status.fail)).length = 0)
    ∧ (exit_code (generate_report s now).snd = 0
      ↔ (s.results.filter (fun r => r.status == Status.fail)).length = 0) := by
  have hb : (generate_report s now).snd
      = ((s.results.filter (fun r => r.status == Status.fail)).length == 0) := rfl
  constructor
  · rw [hb]
    exact ⟨fun h => by simpa using h, fun h => by simp [h]⟩
  · rw [hb]
    constructor
    · intro h
      by_contra hne
      have : ((s.results.filter (fun r => r.status == Status.fail)).length == 0)
          = false := by simp [hne]
      rw [this] at h
      simp [exit_code] at h
    · intro h
      simp [exit_code, h]

/-- C7: the report summary satisfies passed + failed + skipped = total;
success_rate is 0 when total = 0 and equals passed / total on the 0–100
scale otherwise. -/
theorem report_summary_consistent (s : TestSession) (now : Nat) :
    ((generate_report s now).fst.passed + (generate_report s now).fst.failed
        + (generate_report s now).fst.skipped
      = (generate_report s now).fst.total_tests)
    ∧ ((generate_report s now).fst.total_tests = 0 →
        (generate_report s now).fst.success_rate = 0)
    ∧ (0 < (generate_report s now).fst.total_tests →
        (generate_report s now).fst.success_rate
          = ((generate_report s now).fst.passed : ℚ)
            / ((generate_report s now).fst.total_tests : ℚ) * 100) := by
  refine ⟨status_counts_sum s.results, ?_, ?_⟩
  · intro h
    have hlen : s.results.length = 0 := h
    simp [generate_report, hlen]
  · intro h
    have hlen : 0 < s.results.length := h
    simp [generate_report, hlen]

/-- Witness for C7: ten scheduled checks with two failures give
passed + failed + skipped = total = 10 and a success rate of 80. -/
theorem report_summary_consistent_witness :
    ((generate_report ten_session 5).fst.passed
        + (generate_report ten_session 5).fst.failed
        + (generate_report ten_session 5).fst.skipped
      = (generate_report ten_session 5).fst.total_tests)
    ∧ 0 < (generate_report ten_session 5).fst.total_tests
    ∧ (generate_report ten_session 5).fst.success_rate = 80 := by
  have h := report_summary_consistent ten_session 5
  refine ⟨h.1, by decide, ?_⟩
  have h2 := h.2.2 (by decide)
  have hp : (generate_report ten_session 5).fst.passed = 8 := rfl
  have ht : (generate_report ten_session 5).fst.total_tests = 10 := rfl
  rw [h2, hp, ht]
  norm_num

/-- C3: starting from a fresh session, the report lists exactly one
outcome per scheduled test case — same (test_id, name), same order as
the Scheduler's invocations — whatever each check's outcome is. -/
theorem scheduler_report_order (phases : List (List (String × String × Check)))
    (s : TestSession) (now : Nat)
    (hpres : ∀ p ∈ phases, ∀ e ∈ p, ResultsPreserving e.snd.snd)
    (hempty : s.results = []) :
    (generate_report (run_phases phases s) now).fst.results.map
        (fun r => (r.test_id, r.name))
      = (phases.flatten).map (fun e => (e.fst, e.snd.fst))
    ∧ (generate_report (run_phases phases s) now).fst.results.length
      = (phases.flatten).length := by
  have hrep : (generate_report (run_phases phases s) now).fst.results
      = (run_phases phases s).results := rfl
  obtain ⟨h1, _⟩ := run_phases_shape phases s hpres
  rw [hempty] at h1
  simp only [List.map_nil, List.nil_append] at h1
  refine ⟨by rw [hrep, h1], ?_⟩
  rw [hrep]
  calc (run_phases phases s).results.length
      = ((run_phases phases s).results.map (fun r => (r.test_id, r.name))).length :=
        (List.length_map _ _).symm
    _ = ((phases.flatten).map (fun e => (e.fst, e.snd.fst))).length := by rw [h1]
    _ = (phases.flatten).length := List.length_map _ _

/-- Witness for C3: a passing check then a failing check, scheduled in
two phases, appear in the report in schedule order. -/
theorem scheduler_report_order_witness :
    (generate_report (run_phases demo_phases demo_session) 9).fst.results.map
        (fun r => (r.test_id, r.name))
      = [("P1T1", "User Authentication"), ("P1T8", "Error Handling")]
    ∧ (generate_report (run_phases demo_phases demo_session) 9).fst.results.length
      = 2 := by
  have hpres : ∀ p ∈ demo_phases, ∀ e ∈ p, ResultsPreserving e.snd.snd := by
    intro p hp e he
    simp only [demo_phases, List.mem_cons, List.mem_singleton] at hp
    rcases hp with rfl | rfl | hp
    · simp only [List.mem_singleton] at he
      subst he
      exact fun s => rfl
    · simp only [List.mem_singleton] at he
      subst he
      exact fun s => rfl
    · cases hp
  have h := scheduler_report_order demo_phases demo_session 9 hpres rfl
  exact ⟨h.1.trans rfl, h.2.trans rfl⟩

/-- C9: the Runner's two append paths produce only PASS or FAIL, so a
full run reports zero SKIP outcomes. -/
theorem no_skip_outcomes (phases : List (List (String × String × Check)))
    (s : TestSession) (now : Nat)
    (hpres : ∀ p ∈ phases, ∀ e ∈ p, ResultsPreserving e.snd.snd)
    (hempty : s.results = []) :
    (generate_report (run_phases phases s) now).fst.skipped = 0 := by
  obtain ⟨_, h2⟩ := run_phases_shape phases s hpres
  have hnone : ∀ r ∈ (run_phases phases s).results,
      ¬ ((r.status == Status.skip) = true) := by
    intro r hr hskip
    have := h2 r hr (by simpa using hskip)
    rw [hempty] at this
    simp at this
  have hfil : (run_phases phases s).results.filter
      (fun r => r.status == Status.skip) = [] :=
    List.filter_eq_nil_iff.mpr hnone
  show ((run_phases phases s).results.filter
      (fun r => r.status == Status.skip)).length = 0
  rw [hfil]
  rfl

/-- Witness for C9: the two-phase demo run reports zero skips. -/
theorem no_skip_outcomes_witness :
    (generate_report (run_phases demo_phases demo_session) 9).fst.skipped = 0 := by
  refine no_skip_outcomes demo_phases demo_session 9 ?_ rfl
  intro p hp e he
  simp only [demo_phases, List.mem_cons, List.mem_singleton] at hp
  rcases hp with rfl | rfl | hp
  · simp only [List.mem_singleton] at he
    subst he
    exact fun s => rfl
  · simp only [List.mem_singleton] at he
    subst he
    exact fun s => rfl
  · cases hp

/-- C5: an endpoint answering 503, 503, 200 is retried to success in
exactly 3 attempts; an endpoint answering 404 is not retried — the
client fails after exactly 1 attempt with the 404 protocol error. -/
theorem retry_policy_scenarios :
    ((http_post Unit flaky_endpoint).snd = 3
     ∧ (http_post Unit flaky_endpoint).fst
        = Except.ok ⟨200, "OK", "ok", Except.ok ()⟩
     ∧ (make_graphql_request Unit "http://localhost:3000" "session headers"
          (http_post Unit flaky_endpoint).fst).fst = Except.ok ())
    ∧ ((http_post Unit missing_endpoint).snd = 1
     ∧ (make_graphql_request Unit "http://localhost:3000" "session headers"
          (http_post Unit missing_endpoint).fst).fst
        = Except.error (ReqError.protocolError 404 "Not Found")) := by
  exact ⟨⟨rfl, rfl, rfl⟩, rfl, rfl⟩

/-- C4 counterexample: a 201 response (2xx, but not 200) with an
unparseable body raises the protocol error, not a decode error; and on
a 200 response with an unparseable body the raised decode error carries
the JSON decoder's description — the truncated raw-body snippet appears
only in the log, not in the error. -/
theorem graphql_error_paths_cex :
    (make_graphql_request Unit "http://localhost:3000" "session headers"
        (Except.ok created_html_response)).fst
      = Except.error (ReqError.protocolError 201 "Created")
    ∧ (make_graphql_request Unit "http://localhost:3000" "session headers"
        (Except.ok ok_html_response)).fst
      = Except.error (ReqError.decodeError
          "Expecting value: line 1 column 1 (char 0)")
    ∧ ¬ ("<html>oops</html>".toList <:+:
          (ReqError.decodeError
            "Expecting value: line 1 column 1 (char 0)").message.toList)
    ∧ (make_graphql_request Unit "http://localhost:3000" "session headers"
        (Except.ok ok_html_response)).snd
      = ["Making GraphQL request to: http://localhost:3000/api/graphql",
         "Headers: session headers", "Response status: 200",
         "JSON decode error: Expecting value: line 1 column 1 (char 0)",
         "Response content: <html>oops</html>"] := by
  refine ⟨rfl, rfl, ?_, ?_⟩
  · intro hinf
    have hmem : Char.ofNat 60 ∈ "<html>oops</html>".toList := by decide
    have hnot : Char.ofNat 60 ∉ (ReqError.decodeError
        "Expecting value: line 1 column 1 (char 0)").message.toList := by decide
    exact hnot (hinf.subset hmem)
  · have htake : ok_html_response.text.take 500 = "<html>oops</html>" := by
      rw [String.take_eq]
      rfl
    have hlog : (make_graphql_request Unit "http://localhost:3000" "session headers"
        (Except.ok ok_html_response)).snd
      = ["Making GraphQL request to: http://localhost:3000/api/graphql",
         "Headers: session headers", "Response status: 200",
         "JSON decode error: Expecting value: line 1 column 1 (char 0)",
         "Response content: " ++ ok_html_response.text.take 500] := rfl
    rw [hlog, htake]
    rfl

/-- C4 as amended: any returned non-200 status (so any non-2xx, and
also 2xx codes other than 200) fails with the protocol error carrying
the status code and reason; a 200 response whose body does not parse
fails with the distinct decode error carrying the parser's description,
and the truncated 500-character raw-body snippet is written to the log
for diagnostics. -/
theorem graphql_error_paths (α : Type) (base_url headers_rendered : String)
    (response : HttpResponse α) :
    (response.status ≠ 200 →
      (make_graphql_request α base_url headers_rendered
          (Except.ok response)).fst
        = Except.error (ReqError.protocolError response.status response.reason))
    ∧ (∀ e, response.status = 200 → response.body = Except.error e →
        (make_graphql_request α base_url headers_rendered
            (Except.ok response)).fst
          = Except.error (ReqError.decodeError e)
        ∧ ("Response content: " ++ response.text.take 500)
            ∈ (make_graphql_request α base_url headers_rendered
                (Except.ok response)).snd) := by
  constructor
  · intro h
    simp [make_graphql_request, h]
  · intro e h200 hbody
    constructor
    · simp [make_graphql_request, h200, hbody]
    · simp [make_graphql_request, h200, hbody]

/-- Witness for the amended C4: a 404 response takes the protocol-error
path; a 200 response with an HTML body takes the decode-error path and
logs the body snippet. -/
theorem graphql_error_paths_witness :
    (make_graphql_request Unit "http://localhost:3000" "session headers"
        (Except.ok (missing_endpoint 0))).fst
      = Except.error (ReqError.protocolError 404 "Not Found")
    ∧ ((make_graphql_request Unit "http://localhost:3000" "session headers"
          (Except.ok ok_html_response)).fst
        = Except.error (ReqError.decodeError
            "Expecting value: line 1 column 1 (char 0)")
      ∧ ("Response content: " ++ ok_html_response.text.take 500)
          ∈ (make_graphql_request Unit "http://localhost:3000" "session headers"
              (Except.ok ok_html_response)).snd) := by
  refine ⟨?_, ?_⟩
  · exact (graphql_error_paths Unit "http://localhost:3000" "session headers"
      (missing_endpoint 0)).1 (by decide)
  · exact (graphql_error_paths Unit "http://localhost:3000" "session headers"
      ok_html_response).2 "Expecting value: line 1 column 1 (char 0)" rfl rfl

/-- C2 counterexample: when the authentication exchange fails (here the
target rejects the credentials), nothing is cached, so two resolves of
the same identity key perform two network login exchanges — refuting
"at most one exchange per key, no matter how many times it is called". -/
theorem auth_exchange_repeats_cex :
    (auth_calls rejecting_net ["admin", "admin"] demo_session).snd = 2 := by
  decide

/-- C2 as amended: once a resolve for a key has returned a token, every
later resolve for that key — against any backend — returns that cached
token with zero network exchanges (so at most one successful exchange
per key per run); a single resolve performs at most one exchange. -/
theorem auth_cached_after_success
    (net net2 : TestAccount → Except String (HttpResponse LoginBody))
    (s : TestSession) (key token : String) (s2 : TestSession) (n : Nat)
    (h : authenticate_user net s key = (Except.ok token, s2, n)) :
    n ≤ 1
    ∧ authenticate_user net2 s2 key = (Except.ok token, s2, 0)
    ∧ ∀ m, (auth_calls net2 (List.replicate m key) s2).snd = 0 := by
  have hmain : s2.tokens.lookup key = some token ∧ n ≤ 1 := by
    cases hl : s.tokens.lookup key with
    | some t =>
        have heq : ((Except.ok t : Except AuthErr String), s, 0)
            = ((Except.ok token : Except AuthErr String), s2, n) := by
          rw [← h]
          simp [authenticate_user, hl]
        obtain ⟨h1, h2, h3⟩ :
            t = token ∧ s = s2 ∧ 0 = n := by
          simpa using heq
        subst h1; subst h2; subst h3
        exact ⟨hl, by omega⟩
    | none =>
        cases ha : s.accounts.lookup key with
        | none =>
            have := h
            simp [authenticate_user, hl, ha] at this
        | some account =>
            cases hm : (make_graphql_request LoginBody s.base_url
                "session headers" (net account)).fst with
            | error e =>
                have := h
                simp [authenticate_user, hl, ha, hm] at this
            | ok body =>
                cases hb : body.errors with
                | some errs =>
                    have := h
                    simp [authenticate_user, hl, ha, hm, hb] at this
                | none =>
                    cases htk : body.token with
                    | none =>
                        have := h
                        simp [authenticate_user, hl, ha, hm, hb, htk] at this
                    | some t =>
                        have heq : ((Except.ok t : Except AuthErr String),
                            ({ s with tokens := (key, t) :: s.tokens }
                              : TestSession), 1)
                            = ((Except.ok token : Except AuthErr String),
                               s2, n) := by
                          rw [← h]
                          simp [authenticate_user, hl, ha, hm, hb, htk]
                        obtain ⟨h1, h2, h3⟩ :
                            t = token
                            ∧ ({ s with tokens := (key, t) :: s.tokens }
                                : TestSession) = s2
                            ∧ 1 = n := by
                          simpa using heq
                        subst h1
                        subst h3
                        rw [← h2]
                        exact ⟨by simp [List.lookup], by omega⟩
  have hcached : authenticate_user net2 s2 key = (Except.ok token, s2, 0) := by
    simp [authenticate_user, hmain.1]
  refine ⟨hmain.2, hcached, ?_⟩
  intro m
  induction m with
  | zero => rfl
  | succ k ihm =>
      have hcons : auth_calls net2 (key :: List.replicate k key) s2
          = auth_calls net2 (List.replicate k key) s2 := by
        simp only [auth_calls, List.foldl_cons]
        rw [hcached]
        simp
      rw [List.replicate_succ, hcons]
      exact ihm

/-- Witness for the amended C2: after a first successful login of
"admin", a second resolve — even against a backend that would reject
it — returns the cached token with no exchange, and three repeated
resolves perform zero exchanges. -/
theorem auth_cached_after_success_witness :
    (1 : Nat) ≤ 1
    ∧ authenticate_user rejecting_net after_admin_auth "admin"
      = (Except.ok "tok", after_admin_auth, 0)
    ∧ (auth_calls rejecting_net (List.replicate 3 "admin") after_admin_auth).snd
      = 0 := by
  have h := auth_cached_after_success granting_net rejecting_net demo_session
    "admin" "tok" after_admin_auth 1 rfl
  exact ⟨h.1, h.2.1, h.2.2 3⟩

/-- C10: resolving an identity key that is neither cached nor in the
fixed accounts mapping raises the dict `KeyError`, not a structured
authentication error; when the key is known (cached or in the accounts
mapping) the result is never a `KeyError`. -/
theorem auth_unknown_key_keyerror
    (net : TestAccount → Except String (HttpResponse LoginBody))
    (s : TestSession) (key : String) :
    (s.tokens.lookup key = none → s.accounts.lookup key = none →
      authenticate_user net s key
        = (Except.error (AuthErr.keyError key), s, 0))
    ∧ ((s.tokens.lookup key ≠ none ∨ s.accounts.lookup key ≠ none) →
      ∀ e s2 n, authenticate_user net s key
        ≠ (Except.error (AuthErr.keyError e), s2, n)) := by
  constructor
  · intro h1 h2
    simp [authenticate_user, h1, h2]
  · intro hpre e s2 n heq
    cases hl : s.tokens.lookup key with
    | some t =>
        simp [authenticate_user, hl] at heq
    | none =>
        cases ha : s.accounts.lookup key with
        | none =>
            rcases hpre with hp | hp
            · exact hp hl
            · exact hp ha
        | some account =>
            cases hm : (make_graphql_request LoginBody s.base_url
                "session headers" (net account)).fst with
            | error e2 =>
                simp [authenticate_user, hl, ha, hm] at heq
            | ok body =>
                cases hb : body.errors with
                | some errs =>
                    simp [authenticate_user, hl, ha, hm, hb] at heq
                | none =>
                    cases htk : body.token with
                    | none =>
                        simp [authenticate_user, hl, ha, hm, hb, htk] at heq
                    | some t =>
                        simp [authenticate_user, hl, ha, hm, hb, htk] at heq

/-- Witness for C10: "ghost" is not an identity fixed at session start,
so resolving it gives the `KeyError`; "admin" is, so it never does. -/
theorem auth_unknown_key_keyerror_witness :
    authenticate_user granting_net demo_session "ghost"
      = (Except.error (AuthErr.keyError "ghost"), demo_session, 0)
    ∧ authenticate_user granting_net demo_session "admin"
      ≠ (Except.error (AuthErr.keyError "admin"), demo_session, 0) := by
  refine ⟨?_, ?_⟩
  · exact (auth_unknown_key_keyerror granting_net demo_session "ghost").1 rfl rfl
  · exact (auth_unknown_key_keyerror granting_net demo_session "admin").2
      (Or.inr (by decide)) "admin" demo_session 0

end Ekko
